import Mathlib

/-!
Shallow embedding of the gity-skylines core engine
(`src/github-city-generator/src/utils/GridManager.ts`,
`src/github-city-generator/src/utils/FileTracker.ts`,
`CityGeneratorCore` in `src/unnamed/part_010`, and
`CityGenerator` in the second half of `src/types/city.ts`),
together with theorems settling the frozen claims about it.

Modelling conventions:
* JS numbers holding integer quantities (coordinates, timestamps in
  milliseconds, line counts) are modelled as `Int`; world-space geometry
  quantities (heights, opacities) are modelled as `Rat` (all concrete
  configuration values are exactly representable, so the JS doubles behave
  like exact rationals on the inputs considered here).
* A JS `Map` is modelled as an association list with JS semantics:
  `set` overwrites in place keeping insertion order, otherwise appends;
  iteration follows insertion order.
* The `Date.now()`/`Math.random()`-based unique id strings are modelled by a
  fresh `Nat` counter threaded through the engine; ids are opaque, only
  their identity matters.
* `Date` ↔ ISO-8601 string conversion (used by export/import) is a lossless
  bijection at millisecond precision and is modelled as the identity on the
  millisecond count.
* The JS remainder `a % b` agrees with Lean's `Int.emod` on the test
  `(a % b) == 0` for every `b ≠ 0`, which is the only way the source uses it
  on possibly-negative operands (the road rule).
-/

namespace GityCity

/-! ## JS Map model (association lists with insertion-order semantics) -/

/-- JS `Map.get`. -/
def mapGet [DecidableEq α] : List (α × β) → α → Option β
  | [], _ => none
  | (k', v') :: rest, k => if k' = k then some v' else mapGet rest k

/-- JS `Map.set`: overwrite in place if the key exists, else append. -/
def mapSet [DecidableEq α] : List (α × β) → α → β → List (α × β)
  | [], k, v => [(k, v)]
  | (k', v') :: rest, k, v =>
    if k' = k then (k, v) :: rest else (k', v') :: mapSet rest k v

/-- JS `Map.delete`. -/
def mapDelete [DecidableEq α] : List (α × β) → α → List (α × β)
  | [], _ => []
  | (k', v') :: rest, k =>
    if k' = k then mapDelete rest k else (k', v') :: mapDelete rest k

/-! ## GridManager (`GridManager.ts`) -/

/-- JS `ToInt32` wrap: reduce an integer to the range `[-2^31, 2^31)`. -/
def toInt32 (n : Int) : Int :=
  let m := n % (2 ^ 32)
  if m < 2 ^ 31 then m else m - 2 ^ 32

/-- One step of `GridManager.simpleHash`:
`hash = ((hash << 5) - hash) + char; hash = hash & hash`.
The shift wraps to 32 bits first, the subtraction and addition are exact in
doubles at these magnitudes, and `hash & hash` wraps the result to 32 bits. -/
def hashStep (h : Int) (c : Nat) : Int :=
  toInt32 (toInt32 (h * 32) - h + c)

/-- `GridManager.simpleHash`: fold `hashStep` over the code units and take
`Math.abs`. (Characters are modelled by their code points, which agrees with
`charCodeAt` on all BMP characters.) -/
def simpleHash (s : String) : Nat :=
  (s.data.foldl (fun h ch => hashStep h ch.toNat) 0).natAbs

inductive CellState where
  | EMPTY
  | OCCUPIED
  | RESERVED
  | ROAD
deriving DecidableEq, Repr

structure GridCell where
  coordinate : Int × Int
  state : CellState
  buildingId : Option Nat := none
  reservedBy : Option Nat := none
deriving DecidableEq, Repr

structure GridBounds where
  minX : Int
  maxX : Int
  minZ : Int
  maxZ : Int
  width : Int
  height : Int
deriving DecidableEq, Repr

/-- The grid: the JS `Map<string, GridCell>` keyed by `"x,z"` is modelled as a
function from coordinates to `Option GridCell` (`none` = key absent). -/
structure GridState where
  cells : Int × Int → Option GridCell
  bounds : GridBounds
  roadInterval : Int

/-- The road rule `x % roadInterval === 0 || z % roadInterval === 0`. -/
def isRoad (ri x z : Int) : Bool :=
  x % ri == 0 || z % ri == 0

/-- Membership in the inclusive rectangle the initialization/expansion loops
cover (`for x = minX..maxX, z = minZ..maxZ`). -/
def inRect (b : GridBounds) (p : Int × Int) : Prop :=
  b.minX ≤ p.1 ∧ p.1 ≤ b.maxX ∧ b.minZ ≤ p.2 ∧ p.2 ≤ b.maxZ

instance (b : GridBounds) (p : Int × Int) : Decidable (inRect b p) := by
  unfold inRect; infer_instance

/-- The cell written by `initializeGrid` / `expandGrid` for a fresh coordinate:
ROAD by the road rule, else EMPTY. -/
def mkInitCell (ri : Int) (p : Int × Int) : GridCell :=
  { coordinate := p, state := if isRoad ri p.1 p.2 then .ROAD else .EMPTY }

/-- `initialSize = 50` and the constructor's bounds. -/
def initialBounds : GridBounds :=
  { minX := -25, maxX := 25, minZ := -25, maxZ := 25, width := 50, height := 50 }

/-- `new GridManager(roadInterval)` followed by `initializeGrid()`. -/
def initGrid (ri : Int) : GridState :=
  { cells := fun p => if inRect initialBounds p then some (mkInitCell ri p) else none
    bounds := initialBounds
    roadInterval := ri }

/-- `GridManager.getHashedPosition`. -/
def getHashedPosition (g : GridState) (filePath : String) : Int × Int :=
  let h : Int := simpleHash filePath
  (h % g.bounds.width + g.bounds.minX,
   (h / g.bounds.width) % g.bounds.height + g.bounds.minZ)

/-- `GridManager.isValidPosition`: within bounds and an EMPTY cell. -/
def isValidPosition (g : GridState) (p : Int × Int) : Bool :=
  if p.1 < g.bounds.minX ∨ p.1 > g.bounds.maxX ∨
     p.2 < g.bounds.minZ ∨ p.2 > g.bounds.maxZ then false
  else
    match g.cells p with
    | some c => c.state == CellState.EMPTY
    | none => false

/-- The perimeter candidates of the square ring of radius `r` around `pref`,
in the source's loop order (`dx = -r..r` outer, `dz = -r..r` inner, keeping
only `|dx| = r ∨ |dz| = r`). -/
def ringCandidates (pref : Int × Int) (r : Nat) : List (Int × Int) :=
  (List.range (2 * r + 1)).flatMap fun i =>
    (List.range (2 * r + 1)).filterMap fun j =>
      let dx : Int := (i : Int) - r
      let dz : Int := (j : Int) - r
      if dx.natAbs = r ∨ dz.natAbs = r then some (pref.1 + dx, pref.2 + dz)
      else none

/-- `GridManager.findAvailablePosition`: the preferred cell if valid, else the
first valid cell on rings of radius `1, 2, …, max(width, height)`. -/
def findAvailablePosition (g : GridState) (pref : Int × Int) : Option (Int × Int) :=
  if isValidPosition g pref then some pref
  else
    let maxRadius := (max g.bounds.width g.bounds.height).toNat
    ((List.range maxRadius).map (· + 1)).findSome? fun r =>
      (ringCandidates pref r).find? fun c => isValidPosition g c

/-- The bounds produced by `GridManager.expandGrid`: grown in every direction
by `Math.ceil(min(width, height) * 0.5)`. -/
def expandedBounds (b : GridBounds) : GridBounds :=
  let expansion : Int := (min b.width b.height + 1) / 2
  { minX := b.minX - expansion, maxX := b.maxX + expansion
    minZ := b.minZ - expansion, maxZ := b.maxZ + expansion
    width := b.width + expansion * 2, height := b.height + expansion * 2 }

/-- `GridManager.expandGrid`: grow the bounds and add road-rule cells at every
coordinate of the new rectangle not already present; existing cells are kept
untouched. -/
def expandGrid (g : GridState) : GridState :=
  let nb := expandedBounds g.bounds
  { cells := fun p =>
      match g.cells p with
      | some c => some c
      | none => if inRect nb p then some (mkInitCell g.roadInterval p) else none
    bounds := nb
    roadInterval := g.roadInterval }

/-- Overwrite one cell of the grid (the JS code mutates the cell object held
in the map). -/
def setCell (g : GridState) (p : Int × Int) (c : GridCell) : GridState :=
  { g with cells := fun q => if q = p then some c else g.cells q }

/-- The cell mutation at the end of `allocatePosition`:
`cell.state = OCCUPIED; cell.buildingId = buildingId`. -/
def occupyCell (g : GridState) (p : Int × Int) (buildingId : Nat) : GridState :=
  match g.cells p with
  | some c => setCell g p { c with state := .OCCUPIED, buildingId := some buildingId }
  | none => g

/-- `GridManager.allocatePosition`: try the spiral search; on failure expand
once and retry from the same preferred position; mark the found cell OCCUPIED. -/
def allocatePosition (g : GridState) (filePath : String) (buildingId : Nat) :
    Option (Int × Int) × GridState :=
  let pref := getHashedPosition g filePath
  match findAvailablePosition g pref with
  | some p => (some p, occupyCell g p buildingId)
  | none =>
    let g2 := expandGrid g
    match findAvailablePosition g2 pref with
    | some p => (some p, occupyCell g2 p buildingId)
    | none => (none, g2)

/-- `GridManager.freePosition`: OCCUPIED → EMPTY, clearing occupant and
reservation; `false` (state unchanged) otherwise. -/
def freePosition (g : GridState) (p : Int × Int) : Bool × GridState :=
  match g.cells p with
  | some c =>
    if c.state == CellState.OCCUPIED then
      (true, setCell g p { coordinate := c.coordinate, state := .EMPTY })
    else (false, g)
  | none => (false, g)

/-- `GridManager.reservePosition`: EMPTY → RESERVED. -/
def reservePosition (g : GridState) (p : Int × Int) (reservedBy : Nat) :
    Bool × GridState :=
  match g.cells p with
  | some c =>
    if c.state == CellState.EMPTY then
      (true, setCell g p { c with state := .RESERVED, reservedBy := some reservedBy })
    else (false, g)
  | none => (false, g)

/-- `GridManager.releaseReservation`: RESERVED → EMPTY. -/
def releaseReservation (g : GridState) (p : Int × Int) : Bool × GridState :=
  match g.cells p with
  | some c =>
    if c.state == CellState.RESERVED then
      (true, setCell g p { c with state := .EMPTY, reservedBy := none })
    else (false, g)
  | none => (false, g)

example : simpleHash "a.ts" = 2937644 := by decide

example : getHashedPosition (initGrid 4) "a.ts" = (19, -23) := by decide

example : getHashedPosition (initGrid 4) "aab" = (-3, 1) ∧
    getHashedPosition (initGrid 4) "csv" = (-3, 1) ∧
    getHashedPosition (initGrid 4) "abc" = (-21, 2) := by decide

/-! ## FileTracker (`FileTracker.ts`) -/

inductive FileChangeType where
  | CREATE
  | MODIFY
  | DELETE
  | RENAME
  | MOVE
deriving DecidableEq, Repr

inductive FileType where
  | JAVASCRIPT
  | TYPESCRIPT
  | PYTHON
  | JAVA
  | CSS
  | HTML
  | MARKDOWN
  | JSON
  | CONFIG
  | IMAGE
  | OTHER
deriving DecidableEq, Repr

/-- JS `String.split(sep)` on a single-character separator, over char lists:
splitting never yields the empty list (the empty string splits to `[""]`). -/
def splitOnChar (sep : Char) : List Char → List (List Char)
  | [] => [[]]
  | c :: rest =>
    let r := splitOnChar sep rest
    if c = sep then [] :: r
    else
      match r with
      | [] => [[c]]
      | g :: gs => (c :: g) :: gs

/-- ASCII lower-casing of one character (`toLowerCase` restricted to the
ASCII range, which covers every extension the classifier distinguishes). -/
def charToLower (c : Char) : Char :=
  if 65 ≤ c.toNat ∧ c.toNat ≤ 90 then Char.ofNat (c.toNat + 32) else c

/-- `filePath.split('.').pop()?.toLowerCase()`. -/
def extOf (filePath : String) : Option String :=
  ((splitOnChar '.' filePath.data).getLast?).map
    (fun cs => String.mk (cs.map charToLower))

/-- `FileTracker.determineFileType`: classify by the lowercased last
dot-separated component of the path (`split('.').pop()`). -/
def determineFileType (filePath : String) : FileType :=
  match extOf filePath with
  | some "js" | some "jsx" => .JAVASCRIPT
  | some "ts" | some "tsx" => .TYPESCRIPT
  | some "py" => .PYTHON
  | some "java" => .JAVA
  | some "css" | some "scss" | some "sass" | some "less" => .CSS
  | some "html" | some "htm" => .HTML
  | some "md" | some "markdown" => .MARKDOWN
  | some "json" => .JSON
  | some "yml" | some "yaml" | some "toml" | some "ini" | some "conf"
  | some "config" => .CONFIG
  | some "png" | some "jpg" | some "jpeg" | some "gif" | some "svg"
  | some "webp" => .IMAGE
  | _ => .OTHER

/-- The layer payload assembled by the engine before the `id` is attached
(`Omit BuildingLayer id` in the source). Timestamps are milliseconds. -/
structure LayerInput where
  commitSha : String
  timestamp : Int
  author : String
  authorEmail : String
  changeType : FileChangeType
  linesAdded : Int
  linesDeleted : Int
  message : String
deriving DecidableEq, Repr

structure BuildingLayer where
  id : Nat
  commitSha : String
  timestamp : Int
  author : String
  authorEmail : String
  changeType : FileChangeType
  linesAdded : Int
  linesDeleted : Int
  message : String
deriving DecidableEq, Repr

/-- Attach a freshly generated layer id to a layer payload. -/
def mkLayer (lid : Nat) (l : LayerInput) : BuildingLayer :=
  { id := lid, commitSha := l.commitSha, timestamp := l.timestamp
    author := l.author, authorEmail := l.authorEmail
    changeType := l.changeType, linesAdded := l.linesAdded
    linesDeleted := l.linesDeleted, message := l.message }

structure Building where
  id : Nat
  filePath : String
  position : Int × Int
  layers : List BuildingLayer
  fileType : FileType
  isActive : Bool
  createdAt : Int
  lastModified : Int
deriving DecidableEq, Repr

/-- `FileTracker`: `buildings` maps file path → building, `buildingIds` maps
building id → file path. -/
structure FileTracker where
  buildings : List (String × Building)
  buildingIds : List (Nat × String)
deriving DecidableEq, Repr

def FileTracker.empty : FileTracker := ⟨[], []⟩

structure BuildingUpdateResult where
  success : Bool
  building : Option Building := none
deriving DecidableEq, Repr

/-- `FileTracker.createBuilding`. `n` is the fresh-id counter: the building id
and the layer id are the next two fresh ids (generated only on the success
path, as in the source). -/
def createBuilding (t : FileTracker) (n : Nat) (filePath : String)
    (position : Int × Int) (initialLayer : LayerInput) :
    BuildingUpdateResult × FileTracker × Nat :=
  if (mapGet t.buildings filePath).isSome then
    ({ success := false }, t, n)
  else
    let b : Building :=
      { id := n, filePath := filePath, position := position
        layers := [mkLayer (n + 1) initialLayer]
        fileType := determineFileType filePath
        isActive := true
        createdAt := initialLayer.timestamp
        lastModified := initialLayer.timestamp }
    ({ success := true, building := some b },
     { buildings := mapSet t.buildings filePath b
       buildingIds := mapSet t.buildingIds n filePath }, n + 2)

/-- `FileTracker.addLayer`: fails if no building exists for the path or the
building is inactive; otherwise appends the layer and updates `lastModified`. -/
def addLayer (t : FileTracker) (n : Nat) (filePath : String) (layer : LayerInput) :
    BuildingUpdateResult × FileTracker × Nat :=
  match mapGet t.buildings filePath with
  | none => ({ success := false }, t, n)
  | some b =>
    if b.isActive = false then ({ success := false }, t, n)
    else
      let b' := { b with layers := b.layers ++ [mkLayer n layer]
                         lastModified := layer.timestamp }
      ({ success := true, building := some b' },
       { t with buildings := mapSet t.buildings filePath b' }, n + 1)

/-- `FileTracker.deleteBuilding`: fails only if no building exists for the
path (an already-inactive building is accepted again); appends a DELETE layer
and clears `isActive`. -/
def deleteBuilding (t : FileTracker) (n : Nat) (filePath : String)
    (deletionLayer : LayerInput) :
    BuildingUpdateResult × FileTracker × Nat :=
  match mapGet t.buildings filePath with
  | none => ({ success := false }, t, n)
  | some b =>
    let b' := { b with
      layers := b.layers ++ [mkLayer n { deletionLayer with changeType := .DELETE }]
      isActive := false
      lastModified := deletionLayer.timestamp }
    ({ success := true, building := some b' },
     { t with buildings := mapSet t.buildings filePath b' }, n + 1)

/-- `FileTracker.moveBuilding`: fails if no building exists at `oldFilePath`
or any building (active or not) exists at `newFilePath`; otherwise appends a
MOVE layer, rewrites path/position/fileType and re-keys both maps. -/
def moveBuilding (t : FileTracker) (n : Nat) (oldFilePath newFilePath : String)
    (newPosition : Int × Int) (moveLayer : LayerInput) :
    BuildingUpdateResult × FileTracker × Nat :=
  match mapGet t.buildings oldFilePath with
  | none => ({ success := false }, t, n)
  | some b =>
    if (mapGet t.buildings newFilePath).isSome then ({ success := false }, t, n)
    else
      let b' := { b with
        layers := b.layers ++ [mkLayer n { moveLayer with changeType := .MOVE }]
        filePath := newFilePath
        position := newPosition
        fileType := determineFileType newFilePath
        lastModified := moveLayer.timestamp }
      ({ success := true, building := some b' },
       { buildings := mapSet (mapDelete t.buildings oldFilePath) newFilePath b'
         buildingIds := mapSet t.buildingIds b.id newFilePath }, n + 1)

/-- `FileTracker.getBuilding`. -/
def getBuilding (t : FileTracker) (filePath : String) : Option Building :=
  mapGet t.buildings filePath

/-- `FileTracker.getActiveBuildings` (insertion order, active only). -/
def getActiveBuildings (t : FileTracker) : List Building :=
  (t.buildings.map Prod.snd).filter (fun b => b.isActive)

/-- `FileTracker.getAllBuildings`. -/
def getAllBuildings (t : FileTracker) : List Building :=
  t.buildings.map Prod.snd

/-- The `data` record produced by `FileTracker.exportData`: every building in
insertion order, with dates serialized to ISO-8601 strings (a lossless
round-trip at millisecond precision, modelled as the identity on `Int`). -/
structure ExportedData where
  buildings : List Building
deriving DecidableEq, Repr

/-- `FileTracker.exportData`. -/
def exportData (t : FileTracker) : ExportedData :=
  ⟨t.buildings.map Prod.snd⟩

/-- `FileTracker.importData`: clear both maps, then re-insert every exported
building under its file path and record its id → path mapping. -/
def importData (d : ExportedData) : FileTracker :=
  d.buildings.foldl
    (fun t b =>
      { buildings := mapSet t.buildings b.filePath b
        buildingIds := mapSet t.buildingIds b.id b.filePath })
    FileTracker.empty

/-! ## CityGeneratorCore / CityGenerator (`src/unnamed/part_010`, `city.ts`) -/

structure ColorScheme where
  fileTypes : FileType → String
  buildingBase : String
  roads : String
  terrain : String
  recentActivity : String
  oldActivity : String

structure CityConfig where
  gridSpacing : Rat
  roadWidth : Rat
  roadInterval : Int
  buildingBaseSize : Rat
  layerHeight : Rat
  maxBuildingHeight : Rat
  colorScheme : ColorScheme

/-- The engine: grid, ledger, fresh-id counter and configuration. Update
listeners are omitted (they receive notifications but never influence the
state transitions modelled here). -/
structure EngineState where
  grid : GridState
  tracker : FileTracker
  nextId : Nat
  config : CityConfig

/-- The `CityGeneratorCore` constructor. -/
def initEngine (cfg : CityConfig) : EngineState :=
  { grid := initGrid cfg.roadInterval
    tracker := FileTracker.empty
    nextId := 0
    config := cfg }

/-- `CityGeneratorCore.handleFileCreation`: skip if any building exists for
the path; otherwise allocate a cell (with its own freshly generated id) and
then create the ledger entity (which generates another id). On allocation
failure the grid keeps any expansion but no entity is created. -/
def handleFileCreation (s : EngineState) (filePath : String) (layer : LayerInput) :
    EngineState :=
  if (getBuilding s.tracker filePath).isSome then s
  else
    let alloc := allocatePosition s.grid filePath s.nextId
    match alloc.1 with
    | none => { s with grid := alloc.2, nextId := s.nextId + 1 }
    | some pos =>
      let r := createBuilding s.tracker (s.nextId + 1) filePath pos layer
      { s with grid := alloc.2, tracker := r.2.1, nextId := r.2.2 }

/-- `CityGeneratorCore.handleFileModification`: fall back to creation only
when no building (active or not) exists; otherwise `addLayer` (which silently
fails on an inactive building). -/
def handleFileModification (s : EngineState) (filePath : String)
    (layer : LayerInput) : EngineState :=
  match getBuilding s.tracker filePath with
  | none => handleFileCreation s filePath layer
  | some _ =>
    let r := addLayer s.tracker s.nextId filePath layer
    { s with tracker := r.2.1, nextId := r.2.2 }

/-- `CityGeneratorCore.handleFileDeletion`: skip if no building exists for the
path; otherwise retire it in the ledger and then free its (updated) position. -/
def handleFileDeletion (s : EngineState) (filePath : String) (layer : LayerInput) :
    EngineState :=
  match getBuilding s.tracker filePath with
  | none => s
  | some _ =>
    let r := deleteBuilding s.tracker s.nextId filePath layer
    match r.1.building with
    | some b' =>
      { s with grid := (freePosition s.grid b'.position).2
               tracker := r.2.1, nextId := r.2.2 }
    | none => { s with tracker := r.2.1, nextId := r.2.2 }

/-- `CityGeneratorCore.handleFileMove`: fall back to creation at the new path
when no building exists at the old path. Otherwise free the old cell, allocate
a cell for the new path, then attempt the ledger move (which can still fail if
the destination key is taken, leaving the freed and newly occupied cells
behind). -/
def handleFileMove (s : EngineState) (oldPath newPath : String)
    (layer : LayerInput) : EngineState :=
  match getBuilding s.tracker oldPath with
  | none => handleFileCreation s newPath layer
  | some b =>
    let g1 := (freePosition s.grid b.position).2
    let alloc := allocatePosition g1 newPath b.id
    match alloc.1 with
    | none => { s with grid := alloc.2 }
    | some pos =>
      let r := moveBuilding s.tracker s.nextId oldPath newPath pos layer
      { s with grid := alloc.2, tracker := r.2.1, nextId := r.2.2 }

/-- A file-change record together with the commit metadata from which
`CityGenerator.processFileChange` builds the layer. -/
structure ChangeEvent where
  filePath : String
  previousPath : Option String
  changeType : FileChangeType
  linesAdded : Int
  linesDeleted : Int
  commitSha : String
  timestamp : Int
  author : String
  authorEmail : String
  message : String
deriving DecidableEq, Repr

/-- The layer object built in `CityGenerator.processFileChange`. -/
def eventLayer (e : ChangeEvent) : LayerInput :=
  { commitSha := e.commitSha, timestamp := e.timestamp, author := e.author
    authorEmail := e.authorEmail, changeType := e.changeType
    linesAdded := e.linesAdded, linesDeleted := e.linesDeleted
    message := e.message }

/-- The source path of a move: `fileChange.previousPath || fileChange.filePath`
(JS `||`, so an empty string also falls through). -/
def moveSourcePath (e : ChangeEvent) : String :=
  match e.previousPath with
  | some p => if p = "" then e.filePath else p
  | none => e.filePath

/-- `CityGenerator.processFileChange`: dispatch one event to the handlers. -/
def applyChange (s : EngineState) (e : ChangeEvent) : EngineState :=
  match e.changeType with
  | .CREATE => handleFileCreation s e.filePath (eventLayer e)
  | .MODIFY => handleFileModification s e.filePath (eventLayer e)
  | .DELETE => handleFileDeletion s e.filePath (eventLayer e)
  | .RENAME | .MOVE => handleFileMove s (moveSourcePath e) e.filePath (eventLayer e)

/-- Apply a sequence of change events in order. -/
def applyChanges (s : EngineState) (evs : List ChangeEvent) : EngineState :=
  evs.foldl applyChange s

structure LayerGeometry where
  height : Rat
  color : String
  opacity : Rat
  timestamp : Int
  author : String
deriving DecidableEq, Repr

structure BuildingGeometry where
  position : Rat × Rat × Rat
  dimensions : Rat × Rat × Rat
  color : String
  layers : List LayerGeometry
  fileType : FileType
deriving DecidableEq, Repr

/-- `CityGeneratorCore.buildingToGeometry`. The source reads the clock
(`Date.now()`); here the clock reading is the explicit `now` parameter
(milliseconds). `layers.slice(0, layerCount)` truncates the possibly
fractional `layerCount` toward zero. -/
def buildingToGeometry (cfg : CityConfig) (now : Int) (b : Building) :
    Option BuildingGeometry :=
  if b.isActive = false ∨ b.layers.length = 0 then none
  else
    let worldX : Rat := (b.position.1 : Rat) * cfg.gridSpacing
    let worldZ : Rat := (b.position.2 : Rat) * cfg.gridSpacing
    let layerCount : Rat :=
      min (b.layers.length : Rat) (cfg.maxBuildingHeight / cfg.layerHeight)
    let totalHeight := layerCount * cfg.layerHeight
    let geomLayers := (b.layers.take (Int.toNat ⌊layerCount⌋)).map fun l =>
      let age : Int := now - l.timestamp
      let isRecent : Bool := age < 30 * 24 * 60 * 60 * 1000
      { height := cfg.layerHeight
        color := if isRecent then cfg.colorScheme.recentActivity
                 else cfg.colorScheme.oldActivity
        opacity := max (3 / 10 : Rat) (1 - (age : Rat) / (365 * 24 * 60 * 60 * 1000))
        timestamp := l.timestamp
        author := l.author : LayerGeometry }
    let baseColor := cfg.colorScheme.fileTypes b.fileType
    some
      { position := (worldX, totalHeight / 2, worldZ)
        dimensions := (cfg.buildingBaseSize, totalHeight, cfg.buildingBaseSize)
        color := if baseColor = "" then cfg.colorScheme.buildingBase else baseColor
        layers := geomLayers
        fileType := b.fileType }

/-- `CityGenerator.generateBuildingGeometries`: geometry of every active
building (inactive ones are excluded by `getActiveBuildings`). -/
def generateBuildingGeometries (s : EngineState) (now : Int) : List BuildingGeometry :=
  (getActiveBuildings s.tracker).filterMap (buildingToGeometry s.config now)

/-- The snapshot produced by `CityGenerator.exportCityData` (the wall-clock
`timestamp` field is omitted: nothing reads it back). -/
structure CityExport where
  config : CityConfig
  fileTracker : ExportedData
  gridBounds : GridBounds

/-- `CityGenerator.exportCityData`. -/
def exportCityData (s : EngineState) : CityExport :=
  { config := s.config, fileTracker := exportData s.tracker
    gridBounds := s.grid.bounds }

/-- `CityGenerator.rebuildGridFromBuildings`: re-allocate a position for every
active building on the current grid (the stored positions and the exported
bounds are not consulted). -/
def rebuildGridFromBuildings (s : EngineState) : EngineState :=
  (getActiveBuildings s.tracker).foldl
    (fun st b => { st with grid := (allocatePosition st.grid b.filePath b.id).2 })
    s

/-- `CityGenerator.importCityData`: overwrite the config, replace the ledger
with the imported data, then rebuild the grid by re-allocating. The grid
itself is not cleared or restored from the export. -/
def importCityData (s : EngineState) (d : CityExport) : EngineState :=
  rebuildGridFromBuildings
    { s with config := d.config, tracker := importData d.fileTracker }

/-- `CityGenerator.getDefaultConfig`. -/
def defaultColorScheme : ColorScheme :=
  { fileTypes := fun ft =>
      match ft with
      | .JAVASCRIPT => "#f7df1e"
      | .TYPESCRIPT => "#3178c6"
      | .PYTHON => "#3776ab"
      | .JAVA => "#ed8b00"
      | .CSS => "#1572b6"
      | .HTML => "#e34f26"
      | .MARKDOWN => "#083fa1"
      | .JSON => "#000000"
      | .CONFIG => "#6c757d"
      | .IMAGE => "#ff6b6b"
      | .OTHER => "#64748b"
    buildingBase := "#64748b"
    roads := "#374151"
    terrain := "#065f46"
    recentActivity := "#10b981"
    oldActivity := "#6b7280" }

def defaultConfig : CityConfig :=
  { gridSpacing := 2
    roadWidth := 1 / 2
    roadInterval := 4
    buildingBaseSize := 1
    layerHeight := 1 / 5
    maxBuildingHeight := 10
    colorScheme := defaultColorScheme }

/-! ## Concrete events and states used by counterexamples and witnesses -/

def mkCreateEvent (p : String) (t : Int) : ChangeEvent :=
  ⟨p, none, .CREATE, 1, 0, "s", t, "au", "em", "msg"⟩

def mkModifyEvent (p : String) (t : Int) : ChangeEvent :=
  ⟨p, none, .MODIFY, 0, 0, "s", t, "au", "em", "msg"⟩

def mkDeleteEvent (p : String) (t : Int) : ChangeEvent :=
  ⟨p, none, .DELETE, 0, 0, "s", t, "au", "em", "msg"⟩

def mkMoveEvent (oldPath newPath : String) (t : Int) : ChangeEvent :=
  ⟨newPath, some oldPath, .MOVE, 0, 0, "s", t, "au", "em", "msg"⟩

/-- One CREATE of `"a.ts"` applied to a fresh engine; its building lands on
the hashed position `(19, -23)`. -/
def sCreate : EngineState :=
  applyChanges (initEngine defaultConfig) [mkCreateEvent "a.ts" 0]

/-- `sCreate` after a same-engine `importCityData(exportCityData())` round
trip. -/
def sRoundTrip : EngineState := importCityData sCreate (exportCityData sCreate)

/-- CREATE `"aab"` (lands on `(-3, 1)`), CREATE `"abc"` (lands on `(-21, 2)`),
then MOVE `"aab"` → `"abc"`: the destination key is taken, so the ledger move
fails, but only after the source cell `(-3, 1)` has been freed and a fresh
cell `(-22, 1)` has been allocated for the destination. -/
def sMoveConflict : EngineState :=
  applyChanges (initEngine defaultConfig)
    [mkCreateEvent "aab" 0, mkCreateEvent "abc" 1, mkMoveEvent "aab" "abc" 2]

/-- `sMoveConflict` followed by CREATE `"csv"`, whose hashed position is also
`(-3, 1)`: the freed source cell is re-claimed while the ledger still records
the `"aab"` building as active at the same coordinate. -/
def sKeyCollision : EngineState := applyChange sMoveConflict (mkCreateEvent "csv" 3)

/-- CREATE then DELETE of key `"k"`: the entity is retired but stays in the
ledger map. -/
def sDeleted : EngineState :=
  applyChanges (initEngine defaultConfig) [mkCreateEvent "k" 0, mkDeleteEvent "k" 1]

/-! ## Grid lemmas -/

theorem isValidPosition_some_empty {g : GridState} {p : Int × Int}
    (h : isValidPosition g p = true) :
    ∃ c, g.cells p = some c ∧ c.state = CellState.EMPTY := by
  unfold isValidPosition at h
  split at h
  · cases h
  · revert h
    cases hc : g.cells p with
    | none => intro h; cases h
    | some c => intro h; exact ⟨c, rfl, by simpa using h⟩

theorem setCell_cells_self (g : GridState) (p : Int × Int) (c : GridCell) :
    (setCell g p c).cells p = some c := by
  simp [setCell]

theorem setCell_cells_other {g : GridState} {p q : Int × Int} (c : GridCell)
    (h : q ≠ p) : (setCell g p c).cells q = g.cells q := by
  simp [setCell, h]

theorem setCell_bounds (g : GridState) (p : Int × Int) (c : GridCell) :
    (setCell g p c).bounds = g.bounds := rfl

theorem setCell_roadInterval (g : GridState) (p : Int × Int) (c : GridCell) :
    (setCell g p c).roadInterval = g.roadInterval := rfl

theorem expandGrid_preserves {g : GridState} {p : Int × Int} {c : GridCell}
    (h : g.cells p = some c) : (expandGrid g).cells p = some c := by
  simp [expandGrid, h]

theorem expandGrid_new {g : GridState} {p : Int × Int} (h : g.cells p = none)
    (h2 : inRect (expandedBounds g.bounds) p) :
    (expandGrid g).cells p = some (mkInitCell g.roadInterval p) := by
  simp [expandGrid, h, h2]

theorem expandGrid_bounds (g : GridState) :
    (expandGrid g).bounds = expandedBounds g.bounds := rfl

theorem expandGrid_roadInterval (g : GridState) :
    (expandGrid g).roadInterval = g.roadInterval := rfl

theorem findAvailablePosition_valid {g : GridState} {pref p : Int × Int}
    (h : findAvailablePosition g pref = some p) : isValidPosition g p = true := by
  unfold findAvailablePosition at h
  split at h
  · cases h; assumption
  · obtain ⟨r, _, hfind⟩ := List.exists_of_findSome?_eq_some h
    exact List.find?_some hfind

theorem occupyCell_of_empty {g : GridState} {p : Int × Int} {c : GridCell}
    (hc : g.cells p = some c) (bid : Nat) :
    occupyCell g p bid =
      setCell g p { c with state := .OCCUPIED, buildingId := some bid } := by
  simp [occupyCell, hc]

theorem occupyCell_bounds (g : GridState) (p : Int × Int) (bid : Nat) :
    (occupyCell g p bid).bounds = g.bounds := by
  unfold occupyCell; split <;> rfl

theorem occupyCell_roadInterval (g : GridState) (p : Int × Int) (bid : Nat) :
    (occupyCell g p bid).roadInterval = g.roadInterval := by
  unfold occupyCell; split <;> rfl

theorem freePosition_roadInterval (g : GridState) (p : Int × Int) :
    (freePosition g p).2.roadInterval = g.roadInterval := by
  unfold freePosition
  split
  · split <;> rfl
  · rfl

theorem allocatePosition_roadInterval (g : GridState) (k : String) (bid : Nat) :
    (allocatePosition g k bid).2.roadInterval = g.roadInterval := by
  unfold allocatePosition
  cases h1 : findAvailablePosition g (getHashedPosition g k) with
  | some p => simpa [h1] using occupyCell_roadInterval ..
  | none =>
    cases h2 : findAvailablePosition (expandGrid g) (getHashedPosition g k) with
    | some p =>
      simp only [h1, h2]
      exact (occupyCell_roadInterval ..).trans (expandGrid_roadInterval g)
    | none => simp [h1, h2, expandGrid_roadInterval]

/-! ## The road invariant: a present cell is ROAD exactly when the road rule
says so, and road cells are never touched by any grid operation. -/

/-- Every cell present in the grid is in state ROAD iff its coordinate
satisfies the road rule for the grid's own road interval. -/
def RoadInv (g : GridState) : Prop :=
  ∀ p c, g.cells p = some c →
    (c.state = CellState.ROAD ↔ isRoad g.roadInterval p.1 p.2 = true)

theorem expandGrid_cells (g : GridState) (p : Int × Int) :
    (expandGrid g).cells p =
      match g.cells p with
      | some c => some c
      | none =>
        if inRect (expandedBounds g.bounds) p then
          some (mkInitCell g.roadInterval p)
        else none := rfl

theorem mkInitCell_road_iff (ri : Int) (p : Int × Int) :
    (mkInitCell ri p).state = CellState.ROAD ↔ isRoad ri p.1 p.2 = true := by
  simp only [mkInitCell]
  split <;> rename_i hroad <;> simp [hroad]

theorem roadInv_initGrid (ri : Int) : RoadInv (initGrid ri) := by
  intro p c hc
  have hri : (initGrid ri).roadInterval = ri := rfl
  rw [hri]
  simp only [initGrid] at hc
  split at hc
  · injection hc with hc
    subst hc
    exact mkInitCell_road_iff ri p
  · cases hc

theorem roadInv_expandGrid {g : GridState} (h : RoadInv g) :
    RoadInv (expandGrid g) := by
  intro p c hc
  rw [expandGrid_cells] at hc
  rw [expandGrid_roadInterval]
  cases hg : g.cells p with
  | some c0 =>
    rw [hg] at hc
    injection hc with hc
    exact hc ▸ h p c0 hg
  | none =>
    rw [hg] at hc
    by_cases hin : inRect (expandedBounds g.bounds) p
    · rw [if_pos hin] at hc
      injection hc with hc
      exact hc ▸ mkInitCell_road_iff g.roadInterval p
    · rw [if_neg hin] at hc
      cases hc

theorem roadInv_occupy_of_empty {g : GridState} {p : Int × Int} {c : GridCell}
    (h : RoadInv g) (hc : g.cells p = some c) (hst : c.state = CellState.EMPTY)
    (bid : Nat) : RoadInv (occupyCell g p bid) := by
  intro q c' hq
  rw [occupyCell_of_empty hc bid] at hq
  rw [occupyCell_of_empty hc bid, setCell_roadInterval]
  by_cases hqp : q = p
  · subst hqp
    rw [setCell_cells_self] at hq
    injection hq with hq
    subst hq
    have hroad := h q c hc
    rw [hst] at hroad
    constructor
    · intro h'; cases h'
    · intro h'
      exact absurd (hroad.mpr h') (by simp)
  · rw [setCell_cells_other _ hqp] at hq
    exact h q c' hq

theorem roadInv_allocatePosition {g : GridState} (h : RoadInv g)
    (k : String) (bid : Nat) : RoadInv (allocatePosition g k bid).2 := by
  unfold allocatePosition
  cases h1 : findAvailablePosition g (getHashedPosition g k) with
  | some p =>
    obtain ⟨c, hc, hst⟩ := isValidPosition_some_empty (findAvailablePosition_valid h1)
    simpa [h1] using roadInv_occupy_of_empty h hc hst bid
  | none =>
    cases h2 : findAvailablePosition (expandGrid g) (getHashedPosition g k) with
    | some p =>
      obtain ⟨c, hc, hst⟩ := isValidPosition_some_empty (findAvailablePosition_valid h2)
      simpa [h1, h2] using roadInv_occupy_of_empty (roadInv_expandGrid h) hc hst bid
    | none => simpa [h1, h2] using roadInv_expandGrid h

theorem freePosition_of_occupied {g : GridState} {p : Int × Int} {c : GridCell}
    (hc : g.cells p = some c) (hst : c.state = CellState.OCCUPIED) :
    freePosition g p =
      (true, setCell g p { coordinate := c.coordinate, state := .EMPTY }) := by
  simp [freePosition, hc, hst]

theorem freePosition_of_not_occupied {g : GridState} {p : Int × Int}
    (h : ∀ c, g.cells p = some c → c.state ≠ CellState.OCCUPIED) :
    freePosition g p = (false, g) := by
  unfold freePosition
  cases hc : g.cells p with
  | none => rfl
  | some c =>
    have hne : (c.state == CellState.OCCUPIED) = false := by
      simpa using h c hc
    simp [hne]

theorem roadInv_freePosition {g : GridState} (h : RoadInv g) (p : Int × Int) :
    RoadInv (freePosition g p).2 := by
  cases hc : g.cells p with
  | none =>
    rw [freePosition_of_not_occupied (fun c h' => by rw [hc] at h'; cases h')]
    exact h
  | some c =>
    by_cases hst : c.state = CellState.OCCUPIED
    · rw [freePosition_of_occupied hc hst]
      intro q c' hq
      rw [setCell_roadInterval]
      by_cases hqp : q = p
      · subst hqp
        rw [setCell_cells_self] at hq
        injection hq with hq
        subst hq
        have hroad := h q c hc
        rw [hst] at hroad
        constructor
        · intro h'; cases h'
        · intro h'
          exact absurd (hroad.mpr h') (by simp)
      · rw [setCell_cells_other _ hqp] at hq
        exact h q c' hq
    · rw [freePosition_of_not_occupied
        (fun c' h' => by rw [hc] at h'; injection h' with h'; exact h' ▸ hst)]
      exact h

/-- Road cells are never modified by an allocation: the claimed cell is EMPTY,
so it cannot be the road cell, and nothing else changes. -/
theorem allocatePosition_preserves_road {g : GridState} {p : Int × Int}
    {c : GridCell} (hc : g.cells p = some c) (hst : c.state = CellState.ROAD)
    (k : String) (bid : Nat) : (allocatePosition g k bid).2.cells p = some c := by
  unfold allocatePosition
  cases h1 : findAvailablePosition g (getHashedPosition g k) with
  | some q =>
    obtain ⟨cq, hcq, hq⟩ := isValidPosition_some_empty (findAvailablePosition_valid h1)
    have hpq : p ≠ q := by
      intro h'
      subst h'
      rw [hc] at hcq; cases hcq
      rw [hst] at hq; cases hq
    simp only [h1]
    rw [occupyCell_of_empty hcq bid, setCell_cells_other _ hpq]
    exact hc
  | none =>
    have hc2 : (expandGrid g).cells p = some c := expandGrid_preserves hc
    cases h2 : findAvailablePosition (expandGrid g) (getHashedPosition g k) with
    | some q =>
      obtain ⟨cq, hcq, hq⟩ := isValidPosition_some_empty (findAvailablePosition_valid h2)
      have hpq : p ≠ q := by
        intro h'
        subst h'
        rw [hc2] at hcq; cases hcq
        rw [hst] at hq; cases hq
      simp only [h1, h2]
      rw [occupyCell_of_empty hcq bid, setCell_cells_other _ hpq]
      exact hc2
    | none => simpa [h1, h2] using hc2

/-- Road cells are never modified by freeing (only an OCCUPIED cell is). -/
theorem freePosition_preserves_road {g : GridState} {p : Int × Int}
    {c : GridCell} (hc : g.cells p = some c) (hst : c.state = CellState.ROAD)
    (q : Int × Int) : (freePosition g q).2.cells p = some c := by
  unfold freePosition
  cases hcq : g.cells q with
  | none => simpa using hc
  | some cq =>
    by_cases hq : cq.state = CellState.OCCUPIED
    · have hpq : p ≠ q := by
        intro h'
        subst h'
        rw [hc] at hcq; cases hcq
        rw [hst] at hq; cases hq
      simp only [hq]
      simpa using (setCell_cells_other _ hpq).trans hc
    · have : (cq.state == CellState.OCCUPIED) = false := by simpa using hq
      simpa [this] using hc

/-! ## Engine-level invariant preservation -/

/-- The grid part of an engine state is well-behaved: its road interval is the
configured one and the road invariant holds. -/
def GridOk (ri : Int) (g : GridState) : Prop :=
  g.roadInterval = ri ∧ RoadInv g

theorem gridOk_initEngine (cfg : CityConfig) :
    GridOk cfg.roadInterval (initEngine cfg).grid :=
  ⟨rfl, roadInv_initGrid cfg.roadInterval⟩

theorem gridOk_allocatePosition {ri : Int} {g : GridState} (h : GridOk ri g)
    (k : String) (bid : Nat) : GridOk ri (allocatePosition g k bid).2 :=
  ⟨(allocatePosition_roadInterval g k bid).trans h.1,
   roadInv_allocatePosition h.2 k bid⟩

theorem gridOk_freePosition {ri : Int} {g : GridState} (h : GridOk ri g)
    (p : Int × Int) : GridOk ri (freePosition g p).2 :=
  ⟨(freePosition_roadInterval g p).trans h.1, roadInv_freePosition h.2 p⟩

theorem gridOk_handleFileCreation {ri : Int} {s : EngineState}
    (h : GridOk ri s.grid) (k : String) (lay : LayerInput) :
    GridOk ri (handleFileCreation s k lay).grid := by
  unfold handleFileCreation
  split
  · exact h
  · cases hr : (allocatePosition s.grid k s.nextId).1 with
    | none => simpa [hr] using gridOk_allocatePosition h k s.nextId
    | some pos => simpa [hr] using gridOk_allocatePosition h k s.nextId

theorem gridOk_applyChange {ri : Int} {s : EngineState}
    (h : GridOk ri s.grid)
    (e : ChangeEvent) : GridOk ri (applyChange s e).grid := by
  unfold applyChange
  cases e.changeType with
  | CREATE => exact gridOk_handleFileCreation h ..
  | MODIFY =>
    unfold handleFileModification
    cases hb : getBuilding s.tracker e.filePath with
    | none => simpa [hb] using gridOk_handleFileCreation h ..
    | some b => simpa [hb] using h
  | DELETE =>
    unfold handleFileDeletion
    cases hb : getBuilding s.tracker e.filePath with
    | none => simpa [hb] using h
    | some b =>
      simp only [hb]
      cases hr : (deleteBuilding s.tracker s.nextId e.filePath (eventLayer e)).1.building with
      | none => simpa [hr] using h
      | some b' => simpa [hr] using gridOk_freePosition h b'.position
  | RENAME =>
    unfold handleFileMove
    cases hb : getBuilding s.tracker (moveSourcePath e) with
    | none => simpa [hb] using gridOk_handleFileCreation h ..
    | some b =>
      simp only [hb]
      have h1 := gridOk_freePosition h b.position
      cases hr : (allocatePosition (freePosition s.grid b.position).2 e.filePath b.id).1 with
      | none => simpa [hr] using gridOk_allocatePosition h1 e.filePath b.id
      | some pos => simpa [hr] using gridOk_allocatePosition h1 e.filePath b.id
  | MOVE =>
    unfold handleFileMove
    cases hb : getBuilding s.tracker (moveSourcePath e) with
    | none => simpa [hb] using gridOk_handleFileCreation h ..
    | some b =>
      simp only [hb]
      have h1 := gridOk_freePosition h b.position
      cases hr : (allocatePosition (freePosition s.grid b.position).2 e.filePath b.id).1 with
      | none => simpa [hr] using gridOk_allocatePosition h1 e.filePath b.id
      | some pos => simpa [hr] using gridOk_allocatePosition h1 e.filePath b.id

theorem handleFileCreation_config (s : EngineState) (k : String)
    (lay : LayerInput) : (handleFileCreation s k lay).config = s.config := by
  simp only [handleFileCreation]
  split
  · rfl
  · split <;> rfl

theorem handleFileModification_config (s : EngineState) (k : String)
    (lay : LayerInput) : (handleFileModification s k lay).config = s.config := by
  simp only [handleFileModification]
  split
  · exact handleFileCreation_config ..
  · rfl

theorem handleFileDeletion_config (s : EngineState) (k : String)
    (lay : LayerInput) : (handleFileDeletion s k lay).config = s.config := by
  simp only [handleFileDeletion]
  split
  · rfl
  · split <;> rfl

theorem handleFileMove_config (s : EngineState) (oldPath newPath : String)
    (lay : LayerInput) : (handleFileMove s oldPath newPath lay).config = s.config := by
  simp only [handleFileMove]
  split
  · exact handleFileCreation_config ..
  · split <;> rfl

theorem applyChange_config (s : EngineState) (e : ChangeEvent) :
    (applyChange s e).config = s.config := by
  unfold applyChange
  cases e.changeType
  · exact handleFileCreation_config ..
  · exact handleFileModification_config ..
  · exact handleFileDeletion_config ..
  · exact handleFileMove_config ..
  · exact handleFileMove_config ..

/-! ## Allocation equations and the frame property -/

theorem allocatePosition_of_found {g : GridState} {k : String} {p : Int × Int}
    (bid : Nat) (h : findAvailablePosition g (getHashedPosition g k) = some p) :
    allocatePosition g k bid = (some p, occupyCell g p bid) := by
  simp [allocatePosition, h]

theorem allocatePosition_of_expand_found {g : GridState} {k : String}
    {p : Int × Int} (bid : Nat)
    (h1 : findAvailablePosition g (getHashedPosition g k) = none)
    (h2 : findAvailablePosition (expandGrid g) (getHashedPosition g k) = some p) :
    allocatePosition g k bid = (some p, occupyCell (expandGrid g) p bid) := by
  simp [allocatePosition, h1, h2]

theorem allocatePosition_of_never_found {g : GridState} {k : String} (bid : Nat)
    (h1 : findAvailablePosition g (getHashedPosition g k) = none)
    (h2 : findAvailablePosition (expandGrid g) (getHashedPosition g k) = none) :
    allocatePosition g k bid = (none, expandGrid g) := by
  simp [allocatePosition, h1, h2]

theorem occupyCell_state_self {g : GridState} {p : Int × Int} {c : GridCell}
    (hc : g.cells p = some c) (bid : Nat) :
    (occupyCell g p bid).cells p =
      some { c with state := .OCCUPIED, buildingId := some bid } := by
  rw [occupyCell_of_empty hc bid, setCell_cells_self]

theorem occupyCell_cells_other {g : GridState} {p q : Int × Int} (bid : Nat)
    (h : q ≠ p) : (occupyCell g p bid).cells q = g.cells q := by
  unfold occupyCell
  split
  · exact setCell_cells_other _ h
  · rfl

/-- A successful allocation changes nothing except the claimed cell: every
pre-existing cell other than the claimed position keeps its exact cell record,
the claimed cell becomes OCCUPIED with the requested owner, and the claimed
cell was EMPTY in the grid the successful scan ran on (the original grid, or
the expanded grid after a failed first scan). -/
theorem allocatePosition_frame (g : GridState) (k : String) (bid : Nat)
    (p : Int × Int) (hsucc : (allocatePosition g k bid).1 = some p) :
    (∀ q c, q ≠ p → g.cells q = some c →
       (allocatePosition g k bid).2.cells q = some c) ∧
    ((allocatePosition g k bid).2.cells p).map GridCell.state =
      some CellState.OCCUPIED ∧
    ((allocatePosition g k bid).2.cells p).bind GridCell.buildingId = some bid ∧
    ((g.cells p).map GridCell.state = some CellState.EMPTY ∨
      (findAvailablePosition g (getHashedPosition g k) = none ∧
       ((expandGrid g).cells p).map GridCell.state = some CellState.EMPTY)) := by
  cases h1 : findAvailablePosition g (getHashedPosition g k) with
  | some p0 =>
    rw [allocatePosition_of_found bid h1] at hsucc ⊢
    injection hsucc with hsucc
    subst hsucc
    obtain ⟨c, hc, hst⟩ := isValidPosition_some_empty (findAvailablePosition_valid h1)
    refine ⟨?_, ?_, ?_, Or.inl (by rw [hc]; simp [hst])⟩
    · intro q cq hq hcq
      rw [occupyCell_cells_other bid hq]
      exact hcq
    · rw [occupyCell_state_self hc bid]; rfl
    · rw [occupyCell_state_self hc bid]; rfl
  | none =>
    cases h2 : findAvailablePosition (expandGrid g) (getHashedPosition g k) with
    | some p0 =>
      rw [allocatePosition_of_expand_found bid h1 h2] at hsucc ⊢
      injection hsucc with hsucc
      subst hsucc
      obtain ⟨c, hc, hst⟩ :=
        isValidPosition_some_empty (findAvailablePosition_valid h2)
      refine ⟨?_, ?_, ?_, Or.inr ⟨rfl, by rw [hc]; simp [hst]⟩⟩
      · intro q cq hq hcq
        rw [occupyCell_cells_other bid hq]
        exact expandGrid_preserves hcq
      · rw [occupyCell_state_self hc bid]; rfl
      · rw [occupyCell_state_self hc bid]; rfl
    | none =>
      rw [allocatePosition_of_never_found bid h1 h2] at hsucc
      cases hsucc

/-- The hashed position always lands inside well-formed bounds (where
`maxX - minX = width`, `maxZ - minZ = height`, both positive). -/
theorem getHashedPosition_inRect (g : GridState) (k : String)
    (hx : g.bounds.maxX = g.bounds.minX + g.bounds.width)
    (hz : g.bounds.maxZ = g.bounds.minZ + g.bounds.height)
    (hw : 0 < g.bounds.width) (hh : 0 < g.bounds.height) :
    inRect g.bounds (getHashedPosition g k) := by
  have hnn : (0 : Int) ≤ (simpleHash k : Int) := Int.ofNat_nonneg _
  have h1 : 0 ≤ (simpleHash k : Int) % g.bounds.width :=
    Int.emod_nonneg _ (ne_of_gt hw)
  have h2 : (simpleHash k : Int) % g.bounds.width < g.bounds.width :=
    Int.emod_lt_of_pos _ hw
  have hq : 0 ≤ (simpleHash k : Int) / g.bounds.width :=
    Int.ediv_nonneg hnn (le_of_lt hw)
  have h3 : 0 ≤ (simpleHash k : Int) / g.bounds.width % g.bounds.height :=
    Int.emod_nonneg _ (ne_of_gt hh)
  have h4 : (simpleHash k : Int) / g.bounds.width % g.bounds.height <
      g.bounds.height := Int.emod_lt_of_pos _ hh
  simp only [getHashedPosition, inRect]
  omega

/-! ## Import / export of the ledger -/

theorem mapSet_append_of_not_mem {m : List (α × β)} [DecidableEq α] {k : α}
    (h : k ∉ m.map Prod.fst) (v : β) : mapSet m k v = m ++ [(k, v)] := by
  induction m with
  | nil => rfl
  | cons kv rest ih =>
    obtain ⟨k', v'⟩ := kv
    simp only [List.map_cons, List.mem_cons, not_or] at h
    have hne : ¬ (k' = k) := fun h' => h.1 (Eq.symm h')
    simp only [mapSet, if_neg hne]
    rw [ih h.2]
    rfl

/-- Re-inserting exported buildings into an empty tracker rebuilds the exact
original association list, provided keys are unique and each building's
recorded path is its map key (both hold for every tracker the engine builds). -/
theorem importData_go (l : List (String × Building)) (acc : FileTracker)
    (hkeys : ∀ kb ∈ l, kb.2.filePath = kb.1)
    (hnd : (acc.buildings.map Prod.fst ++ l.map Prod.fst).Nodup) :
    ((l.map Prod.snd).foldl
      (fun t b =>
        { buildings := mapSet t.buildings b.filePath b
          buildingIds := mapSet t.buildingIds b.id b.filePath }) acc).buildings =
      acc.buildings ++ l := by
  induction l generalizing acc with
  | nil => simp
  | cons kv rest ih =>
    obtain ⟨k, b⟩ := kv
    have hk : b.filePath = k := hkeys (k, b) (List.mem_cons_self ..)
    have hknotacc : k ∉ acc.buildings.map Prod.fst := by
      rw [List.nodup_append] at hnd
      intro hmem
      exact hnd.2.2 hmem (by simp)
    simp only [List.map_cons, List.foldl_cons, hk]
    set acc2 : FileTracker :=
      { buildings := mapSet acc.buildings k b
        buildingIds := mapSet acc.buildingIds b.id k } with hacc2
    have hsetb : acc2.buildings = acc.buildings ++ [(k, b)] := by
      rw [hacc2]
      exact mapSet_append_of_not_mem hknotacc b
    have hnd2 : (acc2.buildings.map Prod.fst ++ rest.map Prod.fst).Nodup := by
      rw [hsetb]
      simp only [List.map_append, List.map_cons, List.map_nil]
      rw [List.append_assoc]
      simpa using hnd
    rw [ih acc2 (fun kb hkb => hkeys kb (List.mem_cons_of_mem _ hkb)) hnd2, hsetb,
      List.append_assoc]
    rfl

/-! ## Further shared lemmas for the claims -/

theorem gridOk_applyChanges {ri : Int} {s : EngineState} (h : GridOk ri s.grid)
    (evs : List ChangeEvent) : GridOk ri (applyChanges s evs).grid := by
  induction evs generalizing s with
  | nil => exact h
  | cons e rest ih => exact ih (gridOk_applyChange h e)

theorem handleFileCreation_preserves_road {s : EngineState} {p : Int × Int}
    {c : GridCell} (hc : s.grid.cells p = some c)
    (hst : c.state = CellState.ROAD) (k : String) (lay : LayerInput) :
    (handleFileCreation s k lay).grid.cells p = some c := by
  simp only [handleFileCreation]
  split
  · exact hc
  · split
    · exact allocatePosition_preserves_road hc hst ..
    · exact allocatePosition_preserves_road hc hst ..

theorem applyChange_preserves_road {s : EngineState} {p : Int × Int}
    {c : GridCell} (hc : s.grid.cells p = some c)
    (hst : c.state = CellState.ROAD) (e : ChangeEvent) :
    (applyChange s e).grid.cells p = some c := by
  have hmove : ∀ oldPath newPath lay,
      (handleFileMove s oldPath newPath lay).grid.cells p = some c := by
    intro oldPath newPath lay
    simp only [handleFileMove]
    split
    · exact handleFileCreation_preserves_road hc hst ..
    · rename_i b _
      have h1 := freePosition_preserves_road hc hst b.position
      split
      · exact allocatePosition_preserves_road h1 hst ..
      · exact allocatePosition_preserves_road h1 hst ..
  unfold applyChange
  cases e.changeType
  · exact handleFileCreation_preserves_road hc hst ..
  · simp only [handleFileModification]
    split
    · exact handleFileCreation_preserves_road hc hst ..
    · exact hc
  · simp only [handleFileDeletion]
    split
    · exact hc
    · split
      · rename_i b' _
        exact freePosition_preserves_road hc hst b'.position
      · exact hc
  · exact hmove ..
  · exact hmove ..

theorem initGrid_not_occupied {ri : Int} {p : Int × Int} {c : GridCell}
    (hc : (initGrid ri).cells p = some c) : c.state ≠ CellState.OCCUPIED := by
  simp only [initGrid] at hc
  split at hc
  · injection hc with hc
    subst hc
    simp only [mkInitCell]
    split <;> simp
  · cases hc

/-! ## The claims -/

/-- C1, counterexample: exporting and re-importing an engine holding one
entity (the building for `"a.ts"` occupying its hashed cell `(19, -23)`)
reproduces the ledger exactly but not the index: `importCityData` re-allocates
every active building on the existing grid instead of restoring the exported
cells, so the spiral lands on the neighbouring cell `(18, -23)`, which was
EMPTY before the export and is OCCUPIED afterwards — the occupied/road/empty
partition of the index does not match the pre-export index. -/
theorem claim_C1_counterexample :
    (sCreate.grid.cells (18, -23)).map GridCell.state = some CellState.EMPTY ∧
    (sRoundTrip.grid.cells (18, -23)).map GridCell.state =
      some CellState.OCCUPIED ∧
    sRoundTrip.tracker.buildings = sCreate.tracker.buildings :=
  ⟨by decide, by decide, by decide⟩

/-- C1, amended: `import(export())` reproduces an identical ledger — the same
association list of buildings, hence the same ids, keys, positions, layer
sequences and timestamps — for every tracker whose map keys are unique and
agree with each building's recorded path (true of every tracker the engine
builds). The index, however, is not restored: import re-allocates the active
buildings onto the existing grid, so the occupied/empty partition need not
match the pre-export index. -/
theorem claim_C1_amended (t : FileTracker)
    (hkeys : ∀ kb ∈ t.buildings, kb.2.filePath = kb.1)
    (hnd : (t.buildings.map Prod.fst).Nodup) :
    (importData (exportData t)).buildings = t.buildings := by
  unfold importData exportData
  simpa using importData_go t.buildings FileTracker.empty hkeys (by simpa using hnd)

theorem claim_C1_witness :
    (∀ kb ∈ sCreate.tracker.buildings, kb.2.filePath = kb.1) ∧
    (sCreate.tracker.buildings.map Prod.fst).Nodup ∧
    (importData (exportData sCreate.tracker)).buildings =
      sCreate.tracker.buildings :=
  ⟨by decide, by decide, claim_C1_amended _ (by decide) (by decide)⟩

/-- C2, counterexample: after CREATE `"aab"`, CREATE `"abc"`, MOVE
`"aab"` → `"abc"` (a destination conflict that frees the source cell while
leaving the ledger untouched) and CREATE `"csv"` (whose hashed position is
also `(-3, 1)`), two distinct simultaneously-active entities hold the same
grid coordinate `(-3, 1)`. -/
theorem claim_C2_counterexample :
    (getBuilding sKeyCollision.tracker "aab").map
        (fun b => (b.isActive, b.position)) = some (true, (-3, 1)) ∧
    (getBuilding sKeyCollision.tracker "csv").map
        (fun b => (b.isActive, b.position)) = some (true, (-3, 1)) ∧
    (getBuilding sKeyCollision.tracker "aab").map Building.id ≠
      (getBuilding sKeyCollision.tracker "csv").map Building.id :=
  ⟨by decide, by decide, by decide⟩

/-- C2, amended: after any sequence of applied change events, no OCCUPIED
cell's coordinate is divisible by the road interval on x or z, and a cell in
state ROAD is never changed by a further event (so it never becomes OCCUPIED
or RESERVED); however — unlike the original claim — two simultaneously-active
entities CAN hold the same grid coordinate, as the counterexample shows. -/
theorem claim_C2_amended (cfg : CityConfig) (evs : List ChangeEvent)
    (e : ChangeEvent) (p : Int × Int) (c : GridCell)
    (_hri : 0 < cfg.roadInterval)
    (hc : (applyChanges (initEngine cfg) evs).grid.cells p = some c) :
    (c.state = CellState.OCCUPIED →
      ¬ (cfg.roadInterval ∣ p.1 ∨ cfg.roadInterval ∣ p.2)) ∧
    (c.state = CellState.ROAD →
      (applyChange (applyChanges (initEngine cfg) evs) e).grid.cells p = some c) := by
  have hok : GridOk cfg.roadInterval (applyChanges (initEngine cfg) evs).grid :=
    gridOk_applyChanges (gridOk_initEngine cfg) evs
  constructor
  · intro hst hdvd
    have hroad := (hok.2 p c hc).not
    rw [hst] at hroad
    have : isRoad (applyChanges (initEngine cfg) evs).grid.roadInterval p.1 p.2 =
        true := by
      rw [hok.1]
      rcases hdvd with hd | hd
      · simp [isRoad, Int.emod_eq_zero_of_dvd hd]
      · simp [isRoad, Int.emod_eq_zero_of_dvd hd]
    exact absurd this (by simpa using hroad.mp (by simp))
  · intro hst
    exact applyChange_preserves_road hc hst e

theorem claim_C2_witness :
    ¬ ((defaultConfig.roadInterval ∣ (19 : Int)) ∨
        (defaultConfig.roadInterval ∣ (-23 : Int))) ∧
    (applyChange (applyChanges (initEngine defaultConfig) [])
        (mkCreateEvent "x" 0)).grid.cells (0, 0) = some (mkInitCell 4 (0, 0)) :=
  ⟨(claim_C2_amended defaultConfig [mkCreateEvent "a.ts" 0] (mkCreateEvent "x" 0)
      (19, -23) ⟨(19, -23), .OCCUPIED, some 0, none⟩ (by decide) (by decide)).1
      (by decide),
   (claim_C2_amended defaultConfig [] (mkCreateEvent "x" 0) (0, 0)
      (mkInitCell 4 (0, 0)) (by decide) (by decide)).2 (by decide)⟩

/-- C3, counterexample: after CREATE `"aab"`, CREATE `"abc"` and the
destination-conflict MOVE `"aab"` → `"abc"`, the cell `(-22, 1)` is OCCUPIED
although neither entity's recorded position matches it (the two ledger
positions are `(-3, 1)` and `(-21, 2)`): a dangling occupied cell. Moreover
the `"aab"` entity is still active while its recorded cell `(-3, 1)` is
EMPTY: a ledger entity with no backing cell. This contradicts the claim that
a failed MOVE leaves at worst an extra freed cell. -/
theorem claim_C3_counterexample :
    (sMoveConflict.grid.cells (-22, 1)).map GridCell.state =
      some CellState.OCCUPIED ∧
    (getAllBuildings sMoveConflict.tracker).map Building.position =
      [(-3, 1), (-21, 2)] ∧
    (sMoveConflict.grid.cells (-3, 1)).map GridCell.state =
      some CellState.EMPTY ∧
    (getBuilding sMoveConflict.tracker "aab").map Building.isActive =
      some true :=
  ⟨by decide, by decide, by decide, by decide⟩

/-- C3, amended: for a MOVE/RENAME whose destination key is already held by
any entity, the ledger move fails and the ledger is left unchanged (the
source entity keeps its key, position and layers), but before that failure
the engine has already freed the source entity's cell and allocated a fresh
cell for the destination, which stays OCCUPIED with the moving building's id
— a dangling occupied cell rather than merely an extra freed one. -/
theorem claim_C3_amended (s : EngineState) (oldPath newPath : String)
    (lay : LayerInput) (b : Building)
    (hold : getBuilding s.tracker oldPath = some b)
    (hdst : (getBuilding s.tracker newPath).isSome = true) :
    (handleFileMove s oldPath newPath lay).tracker = s.tracker ∧
    (handleFileMove s oldPath newPath lay).grid =
      (allocatePosition (freePosition s.grid b.position).2 newPath b.id).2 ∧
    (∀ q, (allocatePosition (freePosition s.grid b.position).2 newPath b.id).1 =
        some q →
      ((handleFileMove s oldPath newPath lay).grid.cells q).map GridCell.state =
        some CellState.OCCUPIED ∧
      ((handleFileMove s oldPath newPath lay).grid.cells q).bind
        GridCell.buildingId = some b.id) := by
  have hdstm : (mapGet s.tracker.buildings newPath).isSome = true := hdst
  have holdm : mapGet s.tracker.buildings oldPath = some b := hold
  have hfail : ∀ pos, moveBuilding s.tracker s.nextId oldPath newPath pos lay =
      ({ success := false }, s.tracker, s.nextId) := by
    intro pos
    unfold moveBuilding
    rw [holdm]
    simp [hdstm]
  simp only [handleFileMove, hold]
  cases halloc :
      (allocatePosition (freePosition s.grid b.position).2 newPath b.id).1 with
  | none => exact ⟨rfl, rfl, fun q hq => Option.noConfusion hq⟩
  | some pos =>
    refine ⟨?_, rfl, ?_⟩
    · show (moveBuilding s.tracker s.nextId oldPath newPath pos lay).2.1 = s.tracker
      rw [hfail pos]
    · intro q hq
      injection hq with hq
      subst hq
      have hfacts := allocatePosition_frame (freePosition s.grid b.position).2
        newPath b.id pos halloc
      exact ⟨hfacts.2.1, hfacts.2.2.1⟩

/-- The engine state after CREATE `"aab"` and CREATE `"abc"` on a fresh
engine (the precursor of the destination-conflict move). -/
def sTwoCreates : EngineState :=
  applyChanges (initEngine defaultConfig)
    [mkCreateEvent "aab" 0, mkCreateEvent "abc" 1]

/-- The ledger record created for `"a.ts"` in `sCreate`. -/
def aTsBuilding : Building :=
  { id := 1, filePath := "a.ts", position := (19, -23)
    layers := [⟨2, "s", 0, "au", "em", .CREATE, 1, 0, "msg"⟩]
    fileType := .TYPESCRIPT, isActive := true, createdAt := 0, lastModified := 0 }

/-- The ledger record created for `"aab"` in `sTwoCreates`. -/
def aabBuilding : Building :=
  { id := 1, filePath := "aab", position := (-3, 1)
    layers := [⟨2, "s", 0, "au", "em", .CREATE, 1, 0, "msg"⟩]
    fileType := .OTHER, isActive := true, createdAt := 0, lastModified := 0 }

theorem claim_C3_witness :
    getBuilding sTwoCreates.tracker "aab" = some aabBuilding ∧
    (getBuilding sTwoCreates.tracker "abc").isSome = true ∧
    (handleFileMove sTwoCreates "aab" "abc"
        (eventLayer (mkMoveEvent "aab" "abc" 2))).tracker = sTwoCreates.tracker :=
  ⟨by decide, by decide,
   (claim_C3_amended sTwoCreates "aab" "abc" (eventLayer (mkMoveEvent "aab" "abc" 2))
      aabBuilding (by decide) (by decide)).1⟩

/-- C4, counterexample: after CREATE then DELETE of `"k"`, no *active* entity
holds the key (the retired one does), yet `createBuilding` fails and the
engine-level CREATE is skipped — the claim that creation fails only on an
active duplicate, and that a retired entity's key does not block re-creation,
is false on this code. -/
theorem claim_C4_counterexample :
    (getBuilding sDeleted.tracker "k").map Building.isActive = some false ∧
    (createBuilding sDeleted.tracker sDeleted.nextId "k" (5, 5)
        (eventLayer (mkCreateEvent "k" 2))).1.success = false ∧
    (applyChange sDeleted (mkCreateEvent "k" 2)).tracker = sDeleted.tracker :=
  ⟨by decide, by decide, by decide⟩

/-- C4, amended: `createBuilding(key, position, first_layer)` fails if and
only if *any* entity — active or retired — already exists for the key: the
ledger keeps retired entities in the same path-keyed map, so a retired key
blocks creation of a new entity at that key. -/
theorem claim_C4_amended (t : FileTracker) (n : Nat) (k : String)
    (pos : Int × Int) (lay : LayerInput) :
    (createBuilding t n k pos lay).1.success = false ↔
      (mapGet t.buildings k).isSome = true := by
  unfold createBuilding
  by_cases h : (mapGet t.buildings k).isSome = true
  · simp [h]
  · simp [h]

/-- C5, counterexample: after CREATE then DELETE of `"k"` no active entity
exists for the key, yet a second DELETE event is not skipped: it appends a
third layer to the (already retired) entity, changing the ledger. -/
theorem claim_C5_counterexample :
    (getBuilding sDeleted.tracker "k").map Building.isActive = some false ∧
    (getBuilding sDeleted.tracker "k").map (fun b => b.layers.length) = some 2 ∧
    (getBuilding (applyChange sDeleted (mkDeleteEvent "k" 2)).tracker "k").map
        (fun b => b.layers.length) = some 3 :=
  ⟨by decide, by decide, by decide⟩

/-- The amended DELETE semantics, written out as a state transformer: skip
(ledger and index untouched) only when *no* entity — active or retired —
exists for the key; otherwise append a terminal DELETE layer, clear the
active flag, keep the history, and free the entity's recorded cell. -/
def deleteSpec (s : EngineState) (k : String) (lay : LayerInput) : EngineState :=
  match getBuilding s.tracker k with
  | none => s
  | some b =>
    let b' := { b with
      layers := b.layers ++ [mkLayer s.nextId { lay with changeType := .DELETE }]
      isActive := false
      lastModified := lay.timestamp }
    { s with
      tracker := { s.tracker with buildings := mapSet s.tracker.buildings k b' }
      grid := (freePosition s.grid b.position).2
      nextId := s.nextId + 1 }

/-- C5, amended: the DELETE handler equals `deleteSpec`: a DELETE is skipped
(with ledger and index unchanged) exactly when no entity at all exists for
the key — a key held by a retired entity is retired *again* (another terminal
layer is appended) rather than skipped; when an entity exists, the ledger is
retired first and then the entity's cell is freed to EMPTY. -/
theorem claim_C5_amended (s : EngineState) (k : String) (lay : LayerInput) :
    handleFileDeletion s k lay = deleteSpec s k lay := by
  simp only [handleFileDeletion, deleteSpec, deleteBuilding, getBuilding]
  cases h : mapGet s.tracker.buildings k with
  | none => rfl
  | some b => rfl

/-- C6, counterexample: after CREATE then DELETE of `"k"` no active entity
exists for the key, but a MODIFY event does *not* fall back to the CREATE
path: `addLayer` rejects the inactive building, no layer is appended, no new
entity or cell is created, and the state is left exactly as it was. -/
theorem claim_C6_counterexample :
    (getBuilding sDeleted.tracker "k").map Building.isActive = some false ∧
    (applyChange sDeleted (mkModifyEvent "k" 2)).tracker = sDeleted.tracker ∧
    (applyChange sDeleted (mkModifyEvent "k" 2)).nextId = sDeleted.nextId :=
  ⟨by decide, by decide, by decide⟩

/-- The amended MODIFY semantics, written out as a state transformer: fall
back to the CREATE path only when *no* entity at all exists for the key; if
only a retired entity holds the key the event is silently dropped; otherwise
append a layer to the active entity (the grid is untouched). -/
def modifySpec (s : EngineState) (k : String) (lay : LayerInput) : EngineState :=
  match getBuilding s.tracker k with
  | none => handleFileCreation s k lay
  | some b =>
    if b.isActive then
      let b' := { b with layers := b.layers ++ [mkLayer s.nextId lay]
                         lastModified := lay.timestamp }
      { s with
        tracker := { s.tracker with buildings := mapSet s.tracker.buildings k b' }
        nextId := s.nextId + 1 }
    else s

/-- The engine state after CREATE `"a.ts"` then MODIFY `"a.ts"` on a fresh
engine. -/
def sCreateModify : EngineState :=
  applyChanges (initEngine defaultConfig)
    [mkCreateEvent "a.ts" 0, mkModifyEvent "a.ts" 1]

/-- C6, amended: the MODIFY handler equals `modifySpec` (fallback to CREATE
only for a completely unknown key; silent drop for a retired key; append for
an active key), and applying CREATE then MODIFY to `"a.ts"` on a fresh
engine yields an active entity with exactly 2 layers at its hashed cell
`(19, -23)`, which is the unique OCCUPIED cell of the grid. -/
theorem claim_C6_amended :
    (∀ s k lay, handleFileModification s k lay = modifySpec s k lay) ∧
    (getBuilding sCreateModify.tracker "a.ts").map
        (fun b => (b.layers.length, b.isActive, b.position)) =
      some (2, true, (19, -23)) ∧
    (sCreateModify.grid.cells (19, -23)).map GridCell.state =
      some CellState.OCCUPIED ∧
    (∀ p c, sCreateModify.grid.cells p = some c →
      c.state = CellState.OCCUPIED → p = (19, -23)) := by
  refine ⟨?_, by decide, by decide, ?_⟩
  · intro s k lay
    simp only [handleFileModification, modifySpec, addLayer, getBuilding]
    cases h : mapGet s.tracker.buildings k with
    | none => rfl
    | some b =>
      by_cases hact : b.isActive
      · simp [hact]
      · have hfalse : b.isActive = false := by simpa using hact
        simp [hfalse]
  · intro p c hc hst
    by_cases hp : p = (19, -23)
    · exact hp
    · have hg : sCreateModify.grid =
          setCell (initGrid 4) (19, -23)
            { coordinate := (19, -23), state := .OCCUPIED
              buildingId := some 0, reservedBy := none } := rfl
      rw [hg, setCell_cells_other _ hp] at hc
      exact absurd hst (initGrid_not_occupied hc)

/-- C7: two freshly-initialized indices with the same road-interval
configuration (the bounds are fixed by the constructor) compute identical
preferred positions for every key and identical `allocate` results. In the
pure embedding a fresh index is a function of its configuration alone, so
both runs coincide. -/
theorem claim_C7_determinism (ri : Int) (k : String) (bid : Nat)
    (g1 g2 : GridState) (h1 : g1 = initGrid ri) (h2 : g2 = initGrid ri) :
    getHashedPosition g1 k = getHashedPosition g2 k ∧
    allocatePosition g1 k bid = allocatePosition g2 k bid := by
  subst h1
  subst h2
  exact ⟨rfl, rfl⟩

theorem claim_C7_witness :
    getHashedPosition (initGrid 4) "a.ts" = getHashedPosition (initGrid 4) "a.ts" ∧
    allocatePosition (initGrid 4) "a.ts" 0 = allocatePosition (initGrid 4) "a.ts" 0 :=
  claim_C7_determinism 4 "a.ts" 0 (initGrid 4) (initGrid 4) rfl rfl

/-- C8: the allocation algorithm. (a) For well-formed bounds the hashed
preferred position lands inside the bounds; (b) if the preferred cell is
valid (EMPTY and in bounds) it is claimed directly; (c) the spiral scan only
ever returns EMPTY cells; (d) a failed scan means no ring of radius 1 up to
max(width, height) contained a valid cell; (e) after a failed scan the grid
is expanded and the scan retried exactly once from the same preferred
position, the resulting bounds being the symmetric growth by
`ceil(min(width, height) / 2)`; (f) expansion never changes an existing
cell; (g) expansion classifies each newly added cell by the road-interval
rule. -/
theorem claim_C8_allocation (g : GridState) (k : String) (bid : Nat) :
    ((g.bounds.maxX = g.bounds.minX + g.bounds.width ∧
      g.bounds.maxZ = g.bounds.minZ + g.bounds.height ∧
      0 < g.bounds.width ∧ 0 < g.bounds.height) →
      inRect g.bounds (getHashedPosition g k)) ∧
    (isValidPosition g (getHashedPosition g k) = true →
      (allocatePosition g k bid).1 = some (getHashedPosition g k)) ∧
    (∀ p, findAvailablePosition g (getHashedPosition g k) = some p →
      isValidPosition g p = true) ∧
    (findAvailablePosition g (getHashedPosition g k) = none →
      ∀ r : Nat, 1 ≤ r → (r : Int) ≤ max g.bounds.width g.bounds.height →
        ∀ q ∈ ringCandidates (getHashedPosition g k) r,
          isValidPosition g q = false) ∧
    (findAvailablePosition g (getHashedPosition g k) = none →
      (allocatePosition g k bid).1 =
        findAvailablePosition (expandGrid g) (getHashedPosition g k) ∧
      (allocatePosition g k bid).2.bounds = expandedBounds g.bounds) ∧
    (∀ p c, g.cells p = some c → (expandGrid g).cells p = some c) ∧
    (∀ p, g.cells p = none → inRect (expandedBounds g.bounds) p →
      (expandGrid g).cells p = some (mkInitCell g.roadInterval p)) := by
  refine ⟨?_, ?_, fun p => findAvailablePosition_valid, ?_, ?_,
    fun p c => expandGrid_preserves, fun p => expandGrid_new⟩
  · intro ⟨hx, hz, hw, hh⟩
    exact getHashedPosition_inRect g k hx hz hw hh
  · intro hv
    have hfind : findAvailablePosition g (getHashedPosition g k) =
        some (getHashedPosition g k) := by
      unfold findAvailablePosition
      rw [if_pos hv]
    rw [allocatePosition_of_found bid hfind]
  · intro hnone r hr1 hrmax q hq
    unfold findAvailablePosition at hnone
    split at hnone
    · cases hnone
    · rename_i hpref
      rw [List.findSome?_eq_none_iff] at hnone
      have hmem : r ∈ (List.range (max g.bounds.width g.bounds.height).toNat).map
          (· + 1) := by
        have : r - 1 < (max g.bounds.width g.bounds.height).toNat := by
          have h0 : (0 : Int) ≤ max g.bounds.width g.bounds.height := by
            have : (1 : Int) ≤ (r : Int) := by exact_mod_cast hr1
            omega
          have := (Int.le_toNat h0).mpr hrmax
          omega
        simp only [List.mem_map, List.mem_range]
        exact ⟨r - 1, this, by omega⟩
      have hfind := hnone r hmem
      rw [List.find?_eq_none] at hfind
      simpa using hfind q hq
  · intro hnone
    cases h2 : findAvailablePosition (expandGrid g) (getHashedPosition g k) with
    | some p =>
      rw [allocatePosition_of_expand_found bid hnone h2]
      exact ⟨rfl, (occupyCell_bounds ..).trans (expandGrid_bounds g)⟩
    | none =>
      rw [allocatePosition_of_never_found bid hnone h2]
      exact ⟨rfl, expandGrid_bounds g⟩

theorem claim_C8_witness :
    isValidPosition (initGrid 4) (getHashedPosition (initGrid 4) "a.ts") = true ∧
    (allocatePosition (initGrid 4) "a.ts" 3).1 =
      some (getHashedPosition (initGrid 4) "a.ts") :=
  ⟨by decide, (claim_C8_allocation (initGrid 4) "a.ts" 3).2.1 (by decide)⟩

/-- C9, counterexample: the geometry projection reads the wall clock — each
layer's color (and opacity) is a function of `now - timestamp` — so calling
`geometry()` twice at different instants on the *same* unchanged engine state
yields different results: at `now = 0` the single layer of the `"a.ts"`
building is "recent" (`#10b981`), a year later it is "old" (`#6b7280`). -/
theorem claim_C9_counterexample :
    (generateBuildingGeometries sCreate 0).map
        (fun gm => gm.layers.map (fun l => l.color)) ≠
      (generateBuildingGeometries sCreate 31536000000).map
        (fun gm => gm.layers.map (fun l => l.color)) := by
  have hgen : ∀ now : Int,
      (generateBuildingGeometries sCreate now).map
          (fun gm => gm.layers.map (fun l => l.color)) =
        [[if now - 0 < 2592000000 then "#10b981" else "#6b7280"]] := by
    intro now
    have h1 : getActiveBuildings sCreate.tracker = [aTsBuilding] := by decide
    have h2 : sCreate.config = defaultConfig := rfl
    simp only [generateBuildingGeometries, h1, h2, List.filterMap_cons,
      List.filterMap_nil, buildingToGeometry]
    norm_num [aTsBuilding, defaultConfig, defaultColorScheme, List.take]
  rw [hgen 0, hgen 31536000000]
  decide

/-- C9, amended: read queries are pure projections — `geometry()` is a
function of the active-building list, the configuration and the clock
reading alone, so two calls agree whenever those agree (in particular twice
in a row with the same clock); but because the layer colors and opacities
depend on the clock reading, two calls at different instants can differ, as
the counterexample shows. -/
theorem claim_C9_amended (s1 s2 : EngineState) (now : Int)
    (hact : getActiveBuildings s1.tracker = getActiveBuildings s2.tracker)
    (hcfg : s1.config = s2.config) :
    generateBuildingGeometries s1 now = generateBuildingGeometries s2 now := by
  unfold generateBuildingGeometries
  rw [hact, hcfg]

theorem claim_C9_witness :
    generateBuildingGeometries sCreate 0 = generateBuildingGeometries sCreate 0 :=
  claim_C9_amended sCreate sCreate 0 rfl rfl

/-- C10: the frame property of allocation: a successful `allocate` returning
`p` leaves every pre-existing cell other than `p` exactly as it was (state
and occupant), sets `p` to OCCUPIED with the requested owner id, claims a
cell that was EMPTY in the grid the successful scan ran on (the original
grid, or the expanded grid when the first scan failed), and expansion itself
only adds new cells, never changing an existing one. -/
theorem claim_C10_frame (g : GridState) (k : String) (bid : Nat)
    (p : Int × Int) (hsucc : (allocatePosition g k bid).1 = some p) :
    (∀ q c, q ≠ p → g.cells q = some c →
      (allocatePosition g k bid).2.cells q = some c) ∧
    ((allocatePosition g k bid).2.cells p).map GridCell.state =
      some CellState.OCCUPIED ∧
    ((allocatePosition g k bid).2.cells p).bind GridCell.buildingId = some bid ∧
    ((g.cells p).map GridCell.state = some CellState.EMPTY ∨
      (findAvailablePosition g (getHashedPosition g k) = none ∧
        ((expandGrid g).cells p).map GridCell.state = some CellState.EMPTY)) ∧
    (∀ q c, g.cells q = some c → (expandGrid g).cells q = some c) := by
  have h := allocatePosition_frame g k bid p hsucc
  exact ⟨h.1, h.2.1, h.2.2.1, h.2.2.2, fun q c => expandGrid_preserves⟩

theorem claim_C10_witness :
    (allocatePosition (initGrid 4) "a.ts" 7).1 = some (19, -23) ∧
    ((allocatePosition (initGrid 4) "a.ts" 7).2.cells (19, -23)).map
        GridCell.state = some CellState.OCCUPIED ∧
    ((allocatePosition (initGrid 4) "a.ts" 7).2.cells (19, -23)).bind
        GridCell.buildingId = some 7 :=
  ⟨by decide,
   (claim_C10_frame (initGrid 4) "a.ts" 7 (19, -23) (by decide)).2.1,
   (claim_C10_frame (initGrid 4) "a.ts" 7 (19, -23) (by decide)).2.2.1⟩

end GityCity
